import Mathlib

/-!
Verification of the gesture-to-hit mapping and scoring core of the MaiMai-CV
trainer.  All definitions are shallow embeddings of the Python source:
`src/main.py`, `src/game/notes.py`, `src/game/scoring.py`,
`src/game/note_generator.py`, `src/utils/config.py`,
`src/utils/coordinate_mapper.py`, `src/vision/video_analyzer.py` and
`src/vision/hand_tracker.py`.  Angles, distances and timings are modelled as
rationals; square roots and arctangents (transcendental in the float
arithmetic) are handled either by algebraically equivalent squared comparisons
(noted at each use) or by explicit fixed-precision rational approximations on
whose rounding no proved statement depends.
-/

/-- The Python `%` operation on floats with a positive divisor:
`x % y = x - y * floor (x / y)` (result has the sign of the divisor). -/
def pymod (x y : ℚ) : ℚ := x - y * (⌊x / y⌋ : ℚ)

/-- The Python `int(...)` truncation toward zero of a rational. -/
def pyInt (q : ℚ) : ℤ := Int.tdiv q.num (q.den : ℤ)

/-- The eight maimai button sector names (the keys of `hit_stats` in
`src/main.py` and of the region/button tables). -/
inductive SectionName where
  | TOP
  | TOP_RIGHT
  | RIGHT
  | BOTTOM_RIGHT
  | BOTTOM
  | BOTTOM_LEFT
  | LEFT
  | TOP_LEFT
deriving DecidableEq

/-- The section table of `MaiMaiTrainer.get_hit_section`
(`src/main.py` lines 196-205): name, start angle, end angle. -/
def MaiMaiTrainer.sections : List (SectionName × ℚ × ℚ) :=
  [(.TOP, 337.5, 22.5),
   (.TOP_RIGHT, 22.5, 67.5),
   (.RIGHT, 67.5, 112.5),
   (.BOTTOM_RIGHT, 112.5, 157.5),
   (.BOTTOM, 157.5, 202.5),
   (.BOTTOM_LEFT, 202.5, 247.5),
   (.LEFT, 247.5, 292.5),
   (.TOP_LEFT, 292.5, 337.5)]

/-- The scan loop of `get_hit_section` (`src/main.py` lines 208-213):
`if start_angle <= adjusted_angle or adjusted_angle < end_angle:` guards an
inner test that returns only for `TOP`; the `elif start <= adj < end` branch
returns the section name; fall-through past the whole list yields `none`. -/
def MaiMaiTrainer.sectionScan (adj : ℚ) : List (SectionName × ℚ × ℚ) → Option SectionName
  | [] => none
  | (name, s, e) :: rest =>
    if s ≤ adj ∨ adj < e then
      if name = SectionName.TOP ∧ (adj ≥ 337.5 ∨ adj < 22.5) then some name
      else MaiMaiTrainer.sectionScan adj rest
    else if s ≤ adj ∧ adj < e then some name
    else MaiMaiTrainer.sectionScan adj rest

/-- `MaiMaiTrainer.get_hit_section` (`src/main.py` lines 187-215): rotate the
angle by -90 degrees modulo 360, scan the section table, default to `TOP` on
fall-through. -/
def MaiMaiTrainer.get_hit_section (angle : ℚ) : SectionName :=
  (MaiMaiTrainer.sectionScan (pymod (angle - 90) 360) MaiMaiTrainer.sections).getD
    SectionName.TOP

/-- `NoteGenerator.region_angles` (`src/game/note_generator.py` lines 18-27):
the angle at which a note for the given region is spawned. -/
def NoteGenerator.region_angles : SectionName → ℚ
  | .TOP => 90
  | .TOP_RIGHT => 45
  | .RIGHT => 0
  | .BOTTOM_RIGHT => 315
  | .BOTTOM => 270
  | .BOTTOM_LEFT => 225
  | .LEFT => 180
  | .TOP_LEFT => 135

/-- `MaiMaiTrainer.region_to_angle` (`src/main.py` lines 501-513). -/
def MaiMaiTrainer.region_to_angle : SectionName → ℚ
  | .TOP => 270
  | .TOP_RIGHT => 315
  | .RIGHT => 0
  | .BOTTOM_RIGHT => 45
  | .BOTTOM => 90
  | .BOTTOM_LEFT => 135
  | .LEFT => 180
  | .TOP_LEFT => 225

/-- Note type tags ("TAP" / "SLIDE" strings in the source). -/
inductive NoteType where
  | TAP
  | SLIDE
deriving DecidableEq

/-- A note (`Note.__init__`, `src/game/notes.py` lines 17-26).  The `color`
attribute (pure rendering data) is omitted; `creation_time` is the wall-clock
timestamp supplied at creation. -/
structure Note where
  type : NoteType
  angle : ℚ
  radius : ℚ
  creation_time : ℚ
  active : Bool
  hit : Bool
deriving DecidableEq

/-- NOTE_SPEED from `src/utils/config.py` (7.5). -/
def NOTE_SPEED : ℚ := 15 / 2

/-- CIRCLE_RADIUS from `src/utils/config.py`. -/
def CIRCLE_RADIUS : ℚ := 300

/-- `Note.update` (`src/game/notes.py` lines 28-33): the radius of an active note
decreases by NOTE_SPEED; if it drops below 0 the note is deactivated. -/
def Note.update (n : Note) : Note :=
  if n.active then
    let r := n.radius - NOTE_SPEED
    if r < 0 then { n with radius := r, active := false }
    else { n with radius := r }
  else n

/-- `NoteManager.update` (`src/game/notes.py` lines 77-84): iterate over a copy
of the note list, update each note, and remove those whose radius fell below 0.
Iterating the copy while removing from the original is equivalent to this
filtered rebuild. -/
def NoteManager.update : List Note → List Note
  | [] => []
  | n :: rest =>
    let n' := Note.update n
    if n'.radius < 0 then NoteManager.update rest
    else n' :: NoteManager.update rest

/-- The acceptance test of `NoteManager.check_hits` (`src/game/notes.py` lines
100-107) for one hit angle against one note: the angular difference folded onto
the shorter arc must be below 60 and the note radius strictly inside
(CIRCLE_RADIUS * 0.6, CIRCLE_RADIUS * 1.4) = (180, 420) (both float products
round to these exact values). -/
def noteHitCond (hit_angle : ℚ) (n : Note) : Bool :=
  let diff0 := |hit_angle - n.angle|
  let diff := if diff0 > 180 then 360 - diff0 else diff0
  diff < 60 && 180 < n.radius && n.radius < 420

/-- `NoteManager.check_hits` (`src/game/notes.py` lines 86-110).  The hit position of each gesture is turned upstream into an angle in [0, 360) via
`degrees(atan2(dy, dx))` plus 360 if negative; atan2 being transcendental, the
function takes the resulting hit angles as input.  Gestures are never consumed,
so the inner `for ... break` accepts a note exactly when some hit angle
satisfies `noteHitCond`.  Returns (hits, remaining notes). -/
def NoteManager.check_hits : List Note → List ℚ → List Note × List Note
  | [], _ => ([], [])
  | n :: rest, hit_angles =>
    let (hits, remaining) := NoteManager.check_hits rest hit_angles
    if hit_angles.any (fun a => noteHitCond a n) then (n :: hits, remaining)
    else (hits, n :: remaining)

/-- TIMING_WINDOWS from `src/utils/config.py` lines 47-52 (milliseconds). -/
def TIMING_WINDOWS : String → ℚ
  | "PERFECT" => 50
  | "GREAT" => 100
  | "GOOD" => 150
  | "BAD" => 200
  | _ => 0

/-- The score/combo statistics of `ScoreManager.__init__`
(`src/game/scoring.py` lines 8-17); the rendering font is omitted.  Python
integers are modelled as `ℤ`. -/
structure ScoreManager where
  score : ℤ
  combo : ℤ
  max_combo : ℤ
  perfects : ℤ
  greats : ℤ
  goods : ℤ
  misses : ℤ
deriving DecidableEq

/-- The initial ScoreManager state (all counters zero). -/
def ScoreManager.init : ScoreManager :=
  { score := 0, combo := 0, max_combo := 0, perfects := 0, greats := 0,
    goods := 0, misses := 0 }

/-- `ScoreManager.add_hit` (`src/game/scoring.py` lines 22-41). -/
def ScoreManager.add_hit (s : ScoreManager) (timing : ℚ) : ScoreManager :=
  let s' :=
    if timing ≤ TIMING_WINDOWS "PERFECT" then
      { s with score := s.score + 100, perfects := s.perfects + 1, combo := s.combo + 1 }
    else if timing ≤ TIMING_WINDOWS "GREAT" then
      { s with score := s.score + 80, greats := s.greats + 1, combo := s.combo + 1 }
    else if timing ≤ TIMING_WINDOWS "GOOD" then
      { s with score := s.score + 50, goods := s.goods + 1, combo := s.combo + 1 }
    else
      { s with misses := s.misses + 1, combo := 0 }
  { s' with max_combo := max s'.max_combo s'.combo }

/-- `ScoreManager.add_miss` (`src/game/scoring.py` lines 43-46). -/
def ScoreManager.add_miss (s : ScoreManager) : ScoreManager :=
  { s with misses := s.misses + 1, combo := 0 }

/-- One call against the score manager, for reasoning about call sequences. -/
inductive ScoreOp where
  | hit (timing : ℚ)
  | miss

/-- Apply one scoring call. -/
def applyScoreOp (s : ScoreManager) : ScoreOp → ScoreManager
  | .hit t => s.add_hit t
  | .miss => s.add_miss

/-- Apply a finite sequence of scoring calls, oldest first. -/
def applyScoreOps (s : ScoreManager) (ops : List ScoreOp) : ScoreManager :=
  ops.foldl applyScoreOp s

/-- One `NoteManager.update` tick viewed together with the score state:
`NoteManager` (`src/game/notes.py`) holds no reference to any `ScoreManager`
and its `update` method calls no scoring function (and `src/main.py` never
wires the two together), so the score state is untouched by a tick. -/
def noteTick (notes : List Note) (s : ScoreManager) : List Note × ScoreManager :=
  (NoteManager.update notes, s)

/-- Find the first row of an augmented linear system whose leading coefficient
is nonzero; return it together with the other rows. -/
def findPivot : List (List ℚ) → Option (List ℚ × List (List ℚ))
  | [] => none
  | row :: rest =>
    match row with
    | [] => none
    | x :: _ =>
      if x ≠ 0 then some (row, rest)
      else
        match findPivot rest with
        | some (p, rs) => some (p, row :: rs)
        | none => none

/-- Gaussian elimination over ℚ on an augmented system of `n` unknowns (each
row holds `n` coefficients followed by the right-hand side).  Returns the
unique solution when the system is nonsingular. -/
def gaussSolve : Nat → List (List ℚ) → Option (List ℚ)
  | 0, _ => some []
  | n + 1, rows =>
    match findPivot rows with
    | none => none
    | some (pivot, rest) =>
      match pivot with
      | [] => none
      | p :: ptail =>
        let reduced := rest.map fun r =>
          match r with
          | [] => []
          | x :: xs => List.zipWith (fun a b => b - (x / p) * a) ptail xs
        match gaussSolve n reduced with
        | none => none
        | some xs =>
          let coeffs := ptail.take n
          let rhs := (ptail.drop n).headD 0
          some (((rhs - (List.zipWith (fun a b => a * b) coeffs xs).sum) / p) :: xs)

/-- A 3x3 matrix of rationals as a row list. -/
abbrev Mat33 := List (List ℚ)

/-- The homography solve performed by `cv2.getPerspectiveTransform` on exactly
4 point pairs: solve the standard 8x8 linear system for the matrix entries
(the bottom-right entry is fixed to 1).  OpenCV solves with LU decomposition
and leaves unspecified output on a singular system; that case is modelled by
the zero solution. -/
def homographyMatrix (pairs : List ((ℚ × ℚ) × (ℚ × ℚ))) : Mat33 :=
  let rows := (pairs.map fun p =>
    let x := p.1.1
    let y := p.1.2
    let u := p.2.1
    let v := p.2.2
    [[x, y, 1, 0, 0, 0, -u * x, -u * y, u],
     [0, 0, 0, x, y, 1, -v * x, -v * y, v]]).flatten
  match gaussSolve 8 rows with
  | some [a, b, c, d, e, f, g, h] => ([[a, b, c], [d, e, f], [g, h, 1]] : List (List ℚ))
  | _ => ([[0, 0, 0], [0, 0, 0], [0, 0, 1]] : List (List ℚ))

/-- Models `cv2.getPerspectiveTransform` (an external OpenCV routine): it
asserts that the source and destination arrays hold exactly 4 points each and
raises `cv2.error` otherwise; on 4 pairs it returns the homography matrix. -/
def getPerspectiveTransform (pairs : List ((ℚ × ℚ) × (ℚ × ℚ))) : Except String Mat33 :=
  if pairs.length = 4 then .ok (homographyMatrix pairs)
  else .error "getPerspectiveTransform requires exactly 4 point pairs"

/-- `CoordinateMapper.__init__` (`src/utils/coordinate_mapper.py` lines 10-13):
the list of (webcam point, screen point) pairs and the optional matrix. -/
structure CoordinateMapper where
  calibration_points : List ((ℚ × ℚ) × (ℚ × ℚ))
  transformation_matrix : Option Mat33

/-- The freshly constructed mapper: no points, no matrix. -/
def CoordinateMapper.init : CoordinateMapper :=
  { calibration_points := [], transformation_matrix := none }

/-- `CoordinateMapper.add_calibration_point`
(`src/utils/coordinate_mapper.py` lines 15-17). -/
def CoordinateMapper.add_calibration_point (m : CoordinateMapper)
    (webcam_point screen_point : ℚ × ℚ) : CoordinateMapper :=
  { m with calibration_points := m.calibration_points ++ [(webcam_point, screen_point)] }

/-- `CoordinateMapper.calculate_transformation`
(`src/utils/coordinate_mapper.py` lines 19-30): fewer than 4 pairs returns
False without touching the matrix; otherwise all stored pairs are handed to
`cv2.getPerspectiveTransform`, whose error (raised for anything but exactly 4
pairs) propagates as an uncaught exception. -/
def CoordinateMapper.calculate_transformation (m : CoordinateMapper) :
    Except String (CoordinateMapper × Bool) :=
  if m.calibration_points.length < 4 then .ok (m, false)
  else
    match getPerspectiveTransform m.calibration_points with
    | .ok M => .ok ({ m with transformation_matrix := some M }, true)
    | .error e => .error e

/-- `CoordinateMapper.is_calibrated` (`src/utils/coordinate_mapper.py` lines
45-47): true iff the matrix is set. -/
def CoordinateMapper.is_calibrated (m : CoordinateMapper) : Bool :=
  m.transformation_matrix.isSome

/-- The float64 value of `np.pi` as an exact rational (884279719003555 / 2^48). -/
def npPi : ℚ := 884279719003555 / 281474976710656

/-- Fixed-precision rational square root, modelling `np.sqrt` / `math.sqrt` on
nonnegative inputs.  No proved statement depends on its rounding; wherever a
square-root comparison decides behaviour the algebraically equivalent squared
comparison is used instead (noted at each use). -/
def qSqrt (q : ℚ) : ℚ :=
  (Nat.sqrt (⌊q * 1000000000000⌋.toNat) : ℚ) / 1000000

/-- Taylor approximation of arctan in degrees on [-1, 1]. -/
def atanDegRaw (t : ℚ) : ℚ :=
  (t - t ^ 3 / 3 + t ^ 5 / 5 - t ^ 7 / 7 + t ^ 9 / 9) * 180 / npPi

/-- Arctan in degrees on all of ℚ, by octant reduction to `atanDegRaw`. -/
def atanDeg (t : ℚ) : ℚ :=
  if t > 1 then 90 - atanDegRaw (1 / t)
  else if t < -1 then -90 - atanDegRaw (1 / t)
  else atanDegRaw t

/-- Models `math.degrees(math.atan2 y x)` / `np.degrees(np.arctan2 y x)` with a
fixed-precision rational approximation; result in (-180, 180].  No proved
statement depends on its numeric values, only on which displacement it is
applied to. -/
def atan2Deg (y x : ℚ) : ℚ :=
  if x > 0 then atanDeg (y / x)
  else if x < 0 then (if y < 0 then atanDeg (y / x) - 180 else atanDeg (y / x) + 180)
  else if y > 0 then 90
  else if y < 0 then -90
  else 0

/-- Python dict assignment `d[k] = v` on an association list: overwrite the
existing binding or append a new one. -/
def dictInsert {α β : Type} [DecidableEq α] (k : α) (v : β) :
    List (α × β) → List (α × β)
  | [] => [(k, v)]
  | (k', v') :: rest =>
    if k' = k then (k', v) :: rest else (k', v') :: dictInsert k v rest

/-- A contour as consumed by `VideoAnalyzer.detect_screen`
(`src/vision/video_analyzer.py`), abstracted by the quantities the external
OpenCV routines compute for it: `cv2.contourArea`, `cv2.arcLength` and the
centre/radius of `cv2.minEnclosingCircle`. -/
structure Contour where
  area : ℚ
  perimeter : ℚ
  encCenterX : ℚ
  encCenterY : ℚ
  encRadius : ℚ
deriving DecidableEq

/-- min_radius from `VideoAnalyzer.__init__`: int(min(640, 480) * 0.3) = 144
(the float product rounds to 144.0 exactly). -/
def VideoAnalyzer.min_radius : ℚ := 144

/-- max_radius from `VideoAnalyzer.__init__`: int(min(640, 480) * 0.45) = 216
(the float product rounds to 216.0 exactly). -/
def VideoAnalyzer.max_radius : ℚ := 216

/-- The acceptance test of the automatic strategy in `detect_screen`
(`src/vision/video_analyzer.py` lines 161-167): circularity
4*pi*area/perimeter^2 (0 when the perimeter is not positive) must exceed 0.7,
and the implied radius sqrt(area/pi) must lie strictly inside
(min_radius, max_radius); the radius band is encoded by the equivalent squared
comparisons min_radius^2 * pi < area < max_radius^2 * pi (both bounds are
positive, and the numpy sqrt of a negative area would be NaN, failing the
comparison, exactly as area < min_radius^2 * pi fails). -/
def contourQualifies (c : Contour) : Bool :=
  (if c.perimeter > 0 then 4 * npPi * c.area / c.perimeter ^ 2 else 0) > 0.7 &&
    VideoAnalyzer.min_radius ^ 2 * npPi < c.area &&
    c.area < VideoAnalyzer.max_radius ^ 2 * npPi

/-- Stable insertion into a list kept in descending area order: the inserted
contour goes before the first strictly-smaller-or-equal area it meets, which
together with the fold in `sortByAreaDesc` reproduces the stable Python sort
`sorted(contours, key=cv2.contourArea, reverse=True)`. -/
def insertByAreaDesc (c : Contour) : List Contour → List Contour
  | [] => [c]
  | d :: rest =>
    if d.area ≤ c.area then c :: d :: rest else d :: insertByAreaDesc c rest

/-- The Python call `sorted(contours, key=cv2.contourArea, reverse=True)`. -/
def sortByAreaDesc : List Contour → List Contour
  | [] => []
  | c :: rest => insertByAreaDesc c (sortByAreaDesc rest)

/-- The state of `VideoAnalyzer` relevant to screen detection
(`src/vision/video_analyzer.py` lines 31-51): the 8 manually mapped button
positions (in the fixed TOP..TOP_LEFT order) and the stored screen geometry.
Centre and radius are stored as Python ints. -/
structure VideoAnalyzer where
  manual_buttons : List (Option (ℚ × ℚ))
  screen_center : Option (ℤ × ℤ)
  screen_radius : Option ℤ

/-- `VideoAnalyzer.detect_screen` (`src/vision/video_analyzer.py` lines
129-172).  A frame is abstracted by the external contours OpenCV extracts from
its edge map (`none` models a `None` frame).  Manual mapping, when complete,
yields centre = truncated mean of the button points and radius = truncated
mean distance to them; otherwise the sorted contours are scanned for the first
qualifying one, whose minimum enclosing circle becomes the geometry.  On every
failure path the stored geometry is untouched. -/
def VideoAnalyzer.detect_screen : VideoAnalyzer → Option (List Contour) → VideoAnalyzer × Bool
  | va, none => (va, false)
  | va, some contours =>
    if va.manual_buttons.all Option.isSome then
      let pts := va.manual_buttons.reduceOption
      let cx := (pts.map Prod.fst).sum / (pts.length : ℚ)
      let cy := (pts.map Prod.snd).sum / (pts.length : ℚ)
      let distances := pts.map fun p => qSqrt ((p.1 - cx) ^ 2 + (p.2 - cy) ^ 2)
      ({ va with
          screen_center := some (pyInt cx, pyInt cy),
          screen_radius := some (pyInt (distances.sum / (pts.length : ℚ))) }, true)
    else
      match (sortByAreaDesc contours).find? contourQualifies with
      | some c =>
        ({ va with
            screen_center := some (pyInt c.encCenterX, pyInt c.encCenterY),
            screen_radius := some (pyInt c.encRadius) }, true)
      | none => (va, false)

/-- A gesture as returned by `HandTracker.detect_gesture`: ("SLIDE", angle) or
("TAP", None). -/
inductive Gesture where
  | SLIDE (angle : ℚ)
  | TAP
deriving DecidableEq

/-- The per-finger previous-position store `HandTracker.prev_positions`
(keys are strings such as "hand0_finger8"). -/
abbrev PrevPositions := List (String × (ℚ × ℚ × ℚ))

/-- `HandTracker.detect_gesture` (`src/vision/hand_tracker.py` lines 82-107).
The first observation of a finger id only records its position.  Afterwards,
with displacement (dx, dy, dz) against the recorded position (which is updated
before classification), a planar movement sqrt(dx^2+dy^2) above
slide_threshold = 30 yields SLIDE with direction degrees(atan2(dy, dx)); the
movement test is encoded by the equivalent squared comparison
dx^2 + dy^2 > 30^2.  Otherwise |dz| above tap_threshold = 0.1 yields TAP, and
otherwise no gesture.  Returns the updated store and the gesture. -/
def HandTracker.detect_gesture (prev : PrevPositions) (finger_pos : ℚ × ℚ × ℚ)
    (finger_id : String) : PrevPositions × Option Gesture :=
  match List.lookup finger_id prev with
  | none => (dictInsert finger_id finger_pos prev, none)
  | some (px, py, pz) =>
    let dx := finger_pos.1 - px
    let dy := finger_pos.2.1 - py
    let dz := finger_pos.2.2 - pz
    let prev' := dictInsert finger_id finger_pos prev
    if dx ^ 2 + dy ^ 2 > 30 ^ 2 then (prev', some (Gesture.SLIDE (atan2Deg dy dx)))
    else if |dz| > 1 / 10 then (prev', some Gesture.TAP)
    else (prev', none)

/-- The state of `MaiMaiTrainer` used by `check_button_hit` (`src/main.py`):
the hit cooldown timestamp, the per-finger last positions, and the screen
geometry mirrored from `self.video_analyzer`. -/
structure MaiMaiTrainer where
  last_hit_time : ℚ
  last_finger_positions : List (Nat × (ℚ × ℚ))
  screen_center : Option (ℤ × ℤ)
  screen_radius : Option ℤ

/-- `MaiMaiTrainer.check_button_hit` (`src/main.py` lines 392-445).  Gating in
source order: the 50 ms cooldown; first sighting of the finger id only seeds
its position; then, with the last position updated, the Python falsiness test
`not screen_center or not screen_radius` rejects a missing geometry or a zero
radius; the hit ring test 0.7*r < dist < 0.9*r is encoded by the equivalent
squared comparison (with the 0 < r conjunct covering a negative stored radius,
for which the original band is empty); the movement test sqrt(dx^2+dy^2) > 10
is encoded squared.  On a hit the cooldown timestamp is set and True returned;
the hit-dot / statistics bookkeeping (pure visualization) is omitted. -/
def MaiMaiTrainer.check_button_hit (st : MaiMaiTrainer) (current_time fx fy : ℚ)
    (finger_id : Nat) : MaiMaiTrainer × Bool :=
  if current_time - st.last_hit_time < 50 then (st, false)
  else
    match List.lookup finger_id st.last_finger_positions with
    | none =>
      ({ st with last_finger_positions :=
          dictInsert finger_id (fx, fy) st.last_finger_positions }, false)
    | some (lx, ly) =>
      let dx := fx - lx
      let dy := fy - ly
      let newPositions := dictInsert finger_id (fx, fy) st.last_finger_positions
      let st1 := { st with last_finger_positions := newPositions }
      match st.screen_center, st.screen_radius with
      | some (cx, cy), some r =>
        if r = 0 then (st1, false)
        else
          let cdx := fx - (cx : ℚ)
          let cdy := fy - (cy : ℚ)
          if 0 < r ∧ (7 * (r : ℚ) / 10) ^ 2 < cdx ^ 2 + cdy ^ 2 ∧
              cdx ^ 2 + cdy ^ 2 < (9 * (r : ℚ) / 10) ^ 2 then
            if dx ^ 2 + dy ^ 2 > 10 ^ 2 then
              ({ st1 with last_hit_time := current_time }, true)
            else (st1, false)
          else (st1, false)
      | _, _ => (st1, false)

theorem TIMING_WINDOWS_PERFECT : TIMING_WINDOWS "PERFECT" = 50 := rfl

theorem TIMING_WINDOWS_GREAT : TIMING_WINDOWS "GREAT" = 100 := rfl

theorem TIMING_WINDOWS_GOOD : TIMING_WINDOWS "GOOD" = 150 := rfl

theorem add_hit_max_combo_le (s : ScoreManager) (t : ℚ) :
    s.max_combo ≤ (s.add_hit t).max_combo := by
  unfold ScoreManager.add_hit
  split_ifs <;> exact le_max_left _ _

theorem add_hit_score_le (s : ScoreManager) (t : ℚ) :
    s.score ≤ (s.add_hit t).score := by
  unfold ScoreManager.add_hit
  split_ifs <;> simp

theorem applyScoreOp_max_combo_le (s : ScoreManager) (op : ScoreOp) :
    s.max_combo ≤ (applyScoreOp s op).max_combo := by
  cases op with
  | hit t => exact add_hit_max_combo_le s t
  | miss => exact le_refl _

theorem applyScoreOp_score_le (s : ScoreManager) (op : ScoreOp) :
    s.score ≤ (applyScoreOp s op).score := by
  cases op with
  | hit t => exact add_hit_score_le s t
  | miss => exact le_refl _

theorem applyScoreOps_max_combo_le (ops : List ScoreOp) (s : ScoreManager) :
    s.max_combo ≤ (applyScoreOps s ops).max_combo := by
  induction ops generalizing s with
  | nil => exact le_refl _
  | cons op rest ih =>
    exact le_trans (applyScoreOp_max_combo_le s op) (ih (applyScoreOp s op))

theorem applyScoreOps_score_le (ops : List ScoreOp) (s : ScoreManager) :
    s.score ≤ (applyScoreOps s ops).score := by
  induction ops generalizing s with
  | nil => exact le_refl _
  | cons op rest ih =>
    exact le_trans (applyScoreOp_score_le s op) (ih (applyScoreOp s op))

theorem applyScoreOps_append (s : ScoreManager) (ops extra : List ScoreOp) :
    applyScoreOps s (ops ++ extra) = applyScoreOps (applyScoreOps s ops) extra :=
  List.foldl_append _ _ _ _

theorem sectionScan_top_cons (adj : ℚ) (rest : List (SectionName × ℚ × ℚ)) :
    MaiMaiTrainer.sectionScan adj ((SectionName.TOP, 337.5, 22.5) :: rest) =
      (if 337.5 ≤ adj ∨ adj < 22.5 then some SectionName.TOP
       else MaiMaiTrainer.sectionScan adj rest) := by
  simp only [MaiMaiTrainer.sectionScan]
  split_ifs <;> simp_all

theorem sectionScan_nonTop_cons (adj s e : ℚ) (name : SectionName)
    (rest : List (SectionName × ℚ × ℚ)) (hname : name ≠ SectionName.TOP)
    (hse : s < e) :
    MaiMaiTrainer.sectionScan adj ((name, s, e) :: rest) =
      MaiMaiTrainer.sectionScan adj rest := by
  simp only [MaiMaiTrainer.sectionScan]
  have hcond : s ≤ adj ∨ adj < e := by
    rcases le_or_lt s adj with h | h
    · exact Or.inl h
    · exact Or.inr (h.trans hse)
  rw [if_pos hcond, if_neg (fun hc => hname hc.1)]

/-- C1: the claim expects `get_hit_section` to bucket the rotated angle into
the 8 sectors of its own section table, but the first branch of the scan
`start <= adj or adj < end` is true for every angle at every non-TOP entry
(each such entry has start < end) while its inner test returns only for TOP,
and the `elif` is unreachable, so the classifier actually returns TOP for
every input angle. -/
theorem c1_get_hit_section_constant_top (angle : ℚ) :
    MaiMaiTrainer.get_hit_section angle = SectionName.TOP := by
  unfold MaiMaiTrainer.get_hit_section MaiMaiTrainer.sections
  generalize pymod (angle - 90) 360 = adj
  rw [sectionScan_top_cons,
    sectionScan_nonTop_cons _ _ _ _ _ (by decide) (by norm_num),
    sectionScan_nonTop_cons _ _ _ _ _ (by decide) (by norm_num),
    sectionScan_nonTop_cons _ _ _ _ _ (by decide) (by norm_num),
    sectionScan_nonTop_cons _ _ _ _ _ (by decide) (by norm_num),
    sectionScan_nonTop_cons _ _ _ _ _ (by decide) (by norm_num),
    sectionScan_nonTop_cons _ _ _ _ _ (by decide) (by norm_num),
    sectionScan_nonTop_cons _ _ _ _ _ (by decide) (by norm_num)]
  split_ifs <;> rfl

/-- C9: the hit-detection classifier and the note-spawn angle tables are
mutually inconsistent: the spawn angle of some sector is not classified back to
that sector (witnessed by RIGHT, whose spawn angle 0 is classified TOP), for
both the `NoteGenerator.region_angles` table and the
`MaiMaiTrainer.region_to_angle` table. -/
theorem c9_sector_tables_inconsistent :
    (∃ s : SectionName,
        MaiMaiTrainer.get_hit_section (NoteGenerator.region_angles s) ≠ s) ∧
    (∃ s : SectionName,
        MaiMaiTrainer.get_hit_section (MaiMaiTrainer.region_to_angle s) ≠ s) := by
  constructor
  · refine ⟨SectionName.RIGHT, ?_⟩
    norm_num [MaiMaiTrainer.get_hit_section, MaiMaiTrainer.sections,
      MaiMaiTrainer.sectionScan, pymod, NoteGenerator.region_angles]
    decide
  · refine ⟨SectionName.RIGHT, ?_⟩
    norm_num [MaiMaiTrainer.get_hit_section, MaiMaiTrainer.sections,
      MaiMaiTrainer.sectionScan, pymod, MaiMaiTrainer.region_to_angle]
    decide

/-- C4: `add_hit` classifies a timing offset into PERFECT (≤50, +100), GREAT
(≤100, +80), GOOD (≤150, +50) or a miss (0 points, miss count up, combo
reset), first satisfied tier winning; combo increments on every non-miss tier
and `max_combo` is refreshed from the new combo. -/
theorem c4_add_hit_tiers (s : ScoreManager) (t : ℚ) :
    (t ≤ 50 → s.add_hit t = { s with score := s.score + 100, perfects := s.perfects + 1, combo := s.combo + 1, max_combo := max s.max_combo (s.combo + 1) }) ∧
    (¬ t ≤ 50 → t ≤ 100 → s.add_hit t = { s with score := s.score + 80, greats := s.greats + 1, combo := s.combo + 1, max_combo := max s.max_combo (s.combo + 1) }) ∧
    (¬ t ≤ 50 → ¬ t ≤ 100 → t ≤ 150 → s.add_hit t = { s with score := s.score + 50, goods := s.goods + 1, combo := s.combo + 1, max_combo := max s.max_combo (s.combo + 1) }) ∧
    (¬ t ≤ 150 → s.add_hit t = { s with misses := s.misses + 1, combo := 0, max_combo := max s.max_combo 0 }) := by
  refine ⟨fun h1 => ?_, fun h1 h2 => ?_, fun h1 h2 h3 => ?_, fun h3 => ?_⟩
  · simp [ScoreManager.add_hit, TIMING_WINDOWS_PERFECT, h1]
  · simp [ScoreManager.add_hit, TIMING_WINDOWS_PERFECT, TIMING_WINDOWS_GREAT, h1, h2]
  · simp [ScoreManager.add_hit, TIMING_WINDOWS_PERFECT, TIMING_WINDOWS_GREAT,
      TIMING_WINDOWS_GOOD, h1, h2, h3]
  · have h1 : ¬ t ≤ 50 := fun hc => h3 (by linarith)
    have h2 : ¬ t ≤ 100 := fun hc => h3 (by linarith)
    simp [ScoreManager.add_hit, TIMING_WINDOWS_PERFECT, TIMING_WINDOWS_GREAT,
      TIMING_WINDOWS_GOOD, h1, h2, h3]

theorem c4_witness :
    (40 : ℚ) ≤ 50 ∧ ScoreManager.init.add_hit 40 = { score := 100, combo := 1, max_combo := 1, perfects := 1, greats := 0, goods := 0, misses := 0 } := by
  refine ⟨by norm_num, ?_⟩
  rw [(c4_add_hit_tiers ScoreManager.init 40).1 (by norm_num)]
  rfl

/-- C5: across any finite sequence of `add_hit` / `add_miss` calls from the
initial state `max_combo` never decreases; combo resets to 0 on any miss and
on any hit outside all timing windows; and after every `add_hit` call
`max_combo` equals the max of its previous value and the current combo. -/
theorem c5_max_combo_invariants :
    (∀ ops extra : List ScoreOp,
        (applyScoreOps ScoreManager.init ops).max_combo ≤
          (applyScoreOps ScoreManager.init (ops ++ extra)).max_combo) ∧
    (∀ s : ScoreManager, s.add_miss.combo = 0) ∧
    (∀ (s : ScoreManager) (t : ℚ), 150 < t → (s.add_hit t).combo = 0) ∧
    (∀ (s : ScoreManager) (t : ℚ),
        (s.add_hit t).max_combo = max s.max_combo ((s.add_hit t).combo)) := by
  refine ⟨fun ops extra => ?_, fun s => rfl, fun s t ht => ?_, fun s t => ?_⟩
  · rw [applyScoreOps_append]
    exact applyScoreOps_max_combo_le extra _
  · have h1 : ¬ t ≤ 50 := by linarith
    have h2 : ¬ t ≤ 100 := by linarith
    have h3 : ¬ t ≤ 150 := by linarith
    simp [ScoreManager.add_hit, TIMING_WINDOWS_PERFECT, TIMING_WINDOWS_GREAT,
      TIMING_WINDOWS_GOOD, h1, h2, h3]
  · unfold ScoreManager.add_hit
    split_ifs <;> rfl

theorem c5_witness :
    (150 : ℚ) < 200 ∧ (ScoreManager.init.add_hit 200).combo = 0 ∧
      (applyScoreOps ScoreManager.init []).max_combo ≤
        (applyScoreOps ScoreManager.init ([] ++ [ScoreOp.hit 40])).max_combo :=
  ⟨by norm_num, c5_max_combo_invariants.2.2.1 ScoreManager.init 200 (by norm_num),
    c5_max_combo_invariants.1 [] [ScoreOp.hit 40]⟩

/-- C10: score is non-negative and never decreases: every `add_hit` adds
exactly 0, 50, 80 or 100 points, `add_miss` leaves the score unchanged, and
along any call sequence from the initial state the score is monotone and
non-negative. -/
theorem c10_score_monotone_nonneg :
    (∀ (s : ScoreManager) (t : ℚ),
        (s.add_hit t).score = s.score ∨ (s.add_hit t).score = s.score + 50 ∨
        (s.add_hit t).score = s.score + 80 ∨ (s.add_hit t).score = s.score + 100) ∧
    (∀ s : ScoreManager, s.add_miss.score = s.score) ∧
    (∀ ops extra : List ScoreOp,
        (applyScoreOps ScoreManager.init ops).score ≤
          (applyScoreOps ScoreManager.init (ops ++ extra)).score) ∧
    (∀ ops : List ScoreOp, 0 ≤ (applyScoreOps ScoreManager.init ops).score) := by
  refine ⟨fun s t => ?_, fun s => rfl, fun ops extra => ?_, fun ops => ?_⟩
  · unfold ScoreManager.add_hit
    split_ifs <;> simp
  · rw [applyScoreOps_append]
    exact applyScoreOps_score_le extra _
  · exact applyScoreOps_score_le ops ScoreManager.init

theorem check_hits_eq_filter (ns : List Note) (angles : List ℚ) :
    NoteManager.check_hits ns angles =
      (ns.filter (fun n => angles.any (fun a => noteHitCond a n)),
       ns.filter (fun n => !(angles.any (fun a => noteHitCond a n)))) := by
  induction ns with
  | nil => rfl
  | cons n rest ih =>
    simp only [NoteManager.check_hits, ih, List.filter_cons]
    by_cases h : (angles.any fun a => noteHitCond a n) = true
    · simp [h]
    · simp [h]

theorem abs_diff_lt_360 (a b : ℚ) (ha : 0 ≤ a) (ha' : a < 360)
    (hb : 0 ≤ b) (hb' : b < 360) : |a - b| < 360 := by
  rw [abs_lt]
  constructor <;> linarith

theorem noteHitCond_iff_minArc (a : ℚ) (n : Note) (ha : 0 ≤ a) (ha' : a < 360)
    (hn : 0 ≤ n.angle) (hn' : n.angle < 360) :
    noteHitCond a n = true ↔
      min |a - n.angle| (360 - |a - n.angle|) < 60 ∧
        180 < n.radius ∧ n.radius < 420 := by
  have habs : |a - n.angle| < 360 := abs_diff_lt_360 a n.angle ha ha' hn hn'
  unfold noteHitCond
  simp only [Bool.and_eq_true, decide_eq_true_eq]
  constructor
  · rintro ⟨⟨h1, h2⟩, h3⟩
    refine ⟨?_, h2, h3⟩
    split_ifs at h1 with hgt
    · rw [min_eq_right (by linarith)]
      exact h1
    · rw [min_eq_left (by linarith)]
      exact h1
  · rintro ⟨h1, h2, h3⟩
    refine ⟨⟨?_, h2⟩, h3⟩
    split_ifs with hgt
    · rw [min_eq_right (by linarith)] at h1
      exact h1
    · rw [min_eq_left (by linarith)] at h1
      exact h1

/-- C2: with all hit angles and the note angle normalised to [0, 360), a
note is accepted exactly when the hit angle of some gesture lies within shorter-arc
distance below 60 of the note angle while the note radius is strictly
between 0.6 and 1.4 times the play-field radius (180 and 420); hits and the
retained set are the corresponding filters of the incoming note list, so every
accepted note is removed.  The final conjunct of the claim — at most one note
consumed per resolved hit event — fails (see the counterexample): the `break`
only stops scanning gestures for the current note, so one gesture can consume
arbitrarily many notes; what does hold is that each note is consumed at most
once, being removed on acceptance. -/
theorem c2_check_hits_characterisation (ns : List Note) (angles : List ℚ)
    (hang : ∀ a ∈ angles, 0 ≤ a ∧ a < 360) :
    (∀ n : Note, 0 ≤ n.angle → n.angle < 360 →
       (n ∈ (NoteManager.check_hits ns angles).1 ↔
         n ∈ ns ∧ ∃ a ∈ angles,
           min |a - n.angle| (360 - |a - n.angle|) < 60 ∧
             180 < n.radius ∧ n.radius < 420)) ∧
    (NoteManager.check_hits ns angles).1 =
      ns.filter (fun n => angles.any (fun a => noteHitCond a n)) ∧
    (NoteManager.check_hits ns angles).2 =
      ns.filter (fun n => !(angles.any (fun a => noteHitCond a n))) := by
  refine ⟨fun n hn hn' => ?_, ?_, ?_⟩
  · rw [check_hits_eq_filter]
    simp only [List.mem_filter, List.any_eq_true]
    constructor
    · rintro ⟨hmem, a, hamem, hcond⟩
      exact ⟨hmem, a, hamem,
        ((noteHitCond_iff_minArc a n (hang a hamem).1 (hang a hamem).2 hn hn').mp hcond)⟩
    · rintro ⟨hmem, a, hamem, hcond⟩
      exact ⟨hmem, a, hamem,
        ((noteHitCond_iff_minArc a n (hang a hamem).1 (hang a hamem).2 hn hn').mpr hcond)⟩
  · rw [check_hits_eq_filter]
  · rw [check_hits_eq_filter]

theorem c2_witness :
    (∀ a ∈ [(0 : ℚ)], 0 ≤ a ∧ a < 360) ∧
    (⟨NoteType.TAP, 0, 300, 0, true, false⟩ : Note) ∈
      (NoteManager.check_hits [⟨NoteType.TAP, 0, 300, 0, true, false⟩] [0]).1 := by
  refine ⟨by norm_num, ?_⟩
  refine ((c2_check_hits_characterisation
      [⟨NoteType.TAP, 0, 300, 0, true, false⟩] [0] (by norm_num)).1
      ⟨NoteType.TAP, 0, 300, 0, true, false⟩ (by norm_num) (by norm_num)).mpr ?_
  refine ⟨by simp, 0, by simp, ?_, by norm_num, by norm_num⟩
  norm_num

/-- C2 counterexample: two notes both at angle 0 and radius 300 and a single
gesture at hit angle 0: the single resolved hit event consumes both notes, so
"at most one note is consumed per resolved hit event" is false. -/
theorem c2_counterexample :
    NoteManager.check_hits
        [⟨NoteType.TAP, 0, 300, 0, true, false⟩, ⟨NoteType.TAP, 0, 300, 0, true, false⟩]
        [0] =
      ([⟨NoteType.TAP, 0, 300, 0, true, false⟩, ⟨NoteType.TAP, 0, 300, 0, true, false⟩], []) ∧
    1 < (NoteManager.check_hits
        [⟨NoteType.TAP, 0, 300, 0, true, false⟩, ⟨NoteType.TAP, 0, 300, 0, true, false⟩]
        [0]).1.length := by
  have h : NoteManager.check_hits
      [⟨NoteType.TAP, 0, 300, 0, true, false⟩, ⟨NoteType.TAP, 0, 300, 0, true, false⟩]
      [0] =
      ([⟨NoteType.TAP, 0, 300, 0, true, false⟩, ⟨NoteType.TAP, 0, 300, 0, true, false⟩], []) := by
    norm_num [NoteManager.check_hits, noteHitCond]
  exact ⟨h, by rw [h]; simp⟩

/-- C3: each note-engine tick decreases the radius of every active note by
NOTE_SPEED, deactivates exactly the notes whose radius drops below 0, removes
them from the active list, and hits can only come from the current active
list, so a removed note can never be hit again.  The miss-reporting conjunct of the claim — "that miss is reported to the ScoreEngine via add_miss()" — fails
(see the counterexample): `NoteManager` holds no reference to any
`ScoreManager` and its `update` calls no scoring function. -/
theorem c3_note_tick_behaviour :
    (∀ n : Note, n.active = true →
        (Note.update n).radius = n.radius - NOTE_SPEED ∧
        ((Note.update n).active = false ↔ n.radius - NOTE_SPEED < 0)) ∧
    (∀ n : Note, n.active = false → Note.update n = n) ∧
    (∀ ns : List Note, NoteManager.update ns =
        (ns.map Note.update).filter (fun n => !decide (n.radius < 0))) ∧
    (∀ (ns : List Note) (angles : List ℚ) (n : Note),
        n ∈ (NoteManager.check_hits ns angles).1 → n ∈ ns) := by
  refine ⟨fun n hact => ?_, fun n hact => ?_, fun ns => ?_, fun ns angles n hmem => ?_⟩
  · have hupd : Note.update n =
        (if n.radius - NOTE_SPEED < 0 then
          { n with radius := n.radius - NOTE_SPEED, active := false }
        else { n with radius := n.radius - NOTE_SPEED }) := by
      unfold Note.update
      rw [if_pos hact]
    rw [hupd]
    split_ifs with h
    · simp [h]
    · simp [hact, h]
  · unfold Note.update
    rw [if_neg (by simp [hact])]
  · induction ns with
    | nil => rfl
    | cons n rest ih =>
      simp only [NoteManager.update, List.map_cons, List.filter_cons, ih]
      by_cases h : (Note.update n).radius < 0
      · simp [h]
      · simp [h]
  · rw [check_hits_eq_filter] at hmem
    exact (List.mem_filter.mp hmem).1

theorem c3_witness :
    (⟨NoteType.TAP, 0, 300, 0, true, false⟩ : Note).active = true ∧
    (Note.update ⟨NoteType.TAP, 0, 300, 0, true, false⟩).radius = 300 - NOTE_SPEED ∧
    ((Note.update ⟨NoteType.TAP, 0, 300, 0, true, false⟩).active = false ↔
      (300 : ℚ) - NOTE_SPEED < 0) :=
  ⟨rfl, c3_note_tick_behaviour.1 ⟨NoteType.TAP, 0, 300, 0, true, false⟩ rfl⟩

/-- C3 counterexample: a tick that removes a note as missed (radius 5 drops to
-2.5 < 0) leaves the score state untouched — in particular the miss counter
stays 0, although an `add_miss` call would have incremented it to 1 — so the
claimed miss report to the ScoreEngine never happens. -/
theorem c3_counterexample :
    noteTick [⟨NoteType.TAP, 0, 5, 0, true, false⟩] ScoreManager.init =
      ([], ScoreManager.init) ∧
    ScoreManager.init.misses = 0 ∧ ScoreManager.init.add_miss.misses = 1 := by
  refine ⟨?_, rfl, rfl⟩
  norm_num [noteTick, NoteManager.update, Note.update, NOTE_SPEED]

/-- C6: the amended mapper behaviour.  Fewer than 4 pairs: returns False and
leaves the matrix untouched.  Exactly 4 pairs: returns True with the matrix
set.  More than 4 pairs: `cv2.getPerspectiveTransform` rejects the input, so
the call raises instead of succeeding (see the counterexample) — the phrase "4 or more" in the claim must read "exactly 4".  `is_calibrated` is false initially and
true immediately after any successful computation. -/
theorem c6_calculate_transformation_behaviour :
    (∀ m : CoordinateMapper, m.calibration_points.length < 4 →
        m.calculate_transformation = .ok (m, false)) ∧
    (∀ m : CoordinateMapper, m.calibration_points.length = 4 →
        m.calculate_transformation =
          .ok ({ m with transformation_matrix := some (homographyMatrix m.calibration_points) }, true)) ∧
    (∀ m : CoordinateMapper, 4 < m.calibration_points.length →
        m.calculate_transformation =
          .error "getPerspectiveTransform requires exactly 4 point pairs") ∧
    CoordinateMapper.init.is_calibrated = false ∧
    (∀ m m' : CoordinateMapper, m.calculate_transformation = .ok (m', true) →
        m'.is_calibrated = true) := by
  have h1 : ∀ m : CoordinateMapper, m.calibration_points.length < 4 →
      m.calculate_transformation = .ok (m, false) := by
    intro m h
    unfold CoordinateMapper.calculate_transformation
    rw [if_pos h]
  have h2 : ∀ m : CoordinateMapper, m.calibration_points.length = 4 →
      m.calculate_transformation =
        .ok ({ m with transformation_matrix := some (homographyMatrix m.calibration_points) }, true) := by
    intro m h
    unfold CoordinateMapper.calculate_transformation getPerspectiveTransform
    rw [if_neg (by omega), if_pos h]
  have h3 : ∀ m : CoordinateMapper, 4 < m.calibration_points.length →
      m.calculate_transformation =
        .error "getPerspectiveTransform requires exactly 4 point pairs" := by
    intro m h
    unfold CoordinateMapper.calculate_transformation getPerspectiveTransform
    rw [if_neg (by omega), if_neg (by omega)]
  refine ⟨h1, h2, h3, rfl, fun m m' h => ?_⟩
  rcases lt_trichotomy m.calibration_points.length 4 with hl | he | hg
  · rw [h1 m hl] at h
    simp at h
  · rw [h2 m he] at h
    simp only [Except.ok.injEq, Prod.mk.injEq] at h
    obtain ⟨hm, -⟩ := h
    rw [← hm]
    rfl
  · rw [h3 m hg] at h
    simp at h

theorem c6_witness :
    (CoordinateMapper.mk
        [((0, 0), (0, 0)), ((1, 0), (2, 0)), ((1, 1), (2, 2)), ((0, 1), (0, 2))]
        none).calibration_points.length = 4 ∧
    (CoordinateMapper.mk
        [((0, 0), (0, 0)), ((1, 0), (2, 0)), ((1, 1), (2, 2)), ((0, 1), (0, 2))]
        none).calculate_transformation =
      .ok ((CoordinateMapper.mk
          [((0, 0), (0, 0)), ((1, 0), (2, 0)), ((1, 1), (2, 2)), ((0, 1), (0, 2))]
          (some (homographyMatrix [((0, 0), (0, 0)), ((1, 0), (2, 0)), ((1, 1), (2, 2)), ((0, 1), (0, 2))]))), true) ∧
    CoordinateMapper.init.calculate_transformation = .ok (CoordinateMapper.init, false) :=
  ⟨rfl, c6_calculate_transformation_behaviour.2.1 _ rfl,
    c6_calculate_transformation_behaviour.1 CoordinateMapper.init
      (by simp [CoordinateMapper.init])⟩

/-- C6 counterexample: with 5 calibration point pairs the claim demands
success (True, matrix set), but the call hands all 5 pairs to
`cv2.getPerspectiveTransform`, which rejects anything but exactly 4, so the
computation raises instead. -/
theorem c6_counterexample :
    (CoordinateMapper.mk
        [((0, 0), (0, 0)), ((1, 0), (2, 0)), ((1, 1), (2, 2)), ((0, 1), (0, 2)),
         ((2, 2), (4, 4))] none).calculate_transformation =
      .error "getPerspectiveTransform requires exactly 4 point pairs" := rfl

theorem mem_insertByAreaDesc {c x : Contour} {l : List Contour} :
    x ∈ insertByAreaDesc c l ↔ x = c ∨ x ∈ l := by
  induction l with
  | nil => simp [insertByAreaDesc]
  | cons d rest ih =>
    simp only [insertByAreaDesc]
    split_ifs with h
    · simp [List.mem_cons]
    · simp only [List.mem_cons, ih]
      tauto

theorem mem_sortByAreaDesc {x : Contour} {l : List Contour} :
    x ∈ sortByAreaDesc l ↔ x ∈ l := by
  induction l with
  | nil => simp [sortByAreaDesc]
  | cons c rest ih =>
    simp [sortByAreaDesc, mem_insertByAreaDesc, ih]

/-- C7: when manual mapping is incomplete and no extracted contour passes the
circularity / radius-band test, `detect_screen` returns False and the stored
geometry (and the whole analyzer state) is unchanged, so geometry from a prior
successful call is retained; and whenever the stored geometry was never
established (centre or radius is None), `check_button_hit` returns False for
every finger update. -/
theorem c7_detection_failure_nonfatal :
    (∀ (va : VideoAnalyzer) (contours : List Contour),
        none ∈ va.manual_buttons →
        (∀ c ∈ contours, contourQualifies c = false) →
        va.detect_screen (some contours) = (va, false)) ∧
    (∀ (st : MaiMaiTrainer) (current_time fx fy : ℚ) (finger_id : Nat),
        st.screen_center = none ∨ st.screen_radius = none →
        (st.check_button_hit current_time fx fy finger_id).2 = false) := by
  constructor
  · intro va contours hnone hnoq
    have hall : ¬ (va.manual_buttons.all Option.isSome = true) := by
      intro hall
      have := List.all_eq_true.mp hall none hnone
      simp at this
    have hfind : (sortByAreaDesc contours).find? contourQualifies = none := by
      rw [List.find?_eq_none]
      intro x hx
      have hq := hnoq x (mem_sortByAreaDesc.mp hx)
      simp [hq]
    simp only [VideoAnalyzer.detect_screen]
    rw [if_neg hall, hfind]
  · intro st t fx fy fid h
    unfold MaiMaiTrainer.check_button_hit
    by_cases hcool : t - st.last_hit_time < 50
    · rw [if_pos hcool]
    · rw [if_neg hcool]
      cases hl : List.lookup fid st.last_finger_positions with
      | none => rfl
      | some p =>
        obtain ⟨lx, ly⟩ := p
        rcases h with h | h
        · rw [h]
        · rw [h]
          cases hc : st.screen_center with
          | none => rfl
          | some cc =>
            obtain ⟨cx, cy⟩ := cc
            rfl

theorem c7_witness :
    none ∈ ([none, none, none, none, none, none, none, none] : List (Option (ℚ × ℚ))) ∧
    (∀ c ∈ [Contour.mk 1 1 0 0 1], contourQualifies c = false) ∧
    (VideoAnalyzer.mk [none, none, none, none, none, none, none, none] none none).detect_screen
        (some [Contour.mk 1 1 0 0 1]) =
      (VideoAnalyzer.mk [none, none, none, none, none, none, none, none] none none, false) ∧
    ((MaiMaiTrainer.mk 0 [] none none).check_button_hit 1000 5 5 8).2 = false := by
  have hq : ∀ c ∈ [Contour.mk 1 1 0 0 1], contourQualifies c = false := by
    intro c hc
    simp only [List.mem_singleton] at hc
    subst hc
    rw [Bool.eq_false_iff]
    intro hcq
    simp only [contourQualifies, VideoAnalyzer.min_radius, VideoAnalyzer.max_radius,
      Bool.and_eq_true, decide_eq_true_eq] at hcq
    obtain ⟨⟨-, h2⟩, -⟩ := hcq
    norm_num [npPi] at h2
  refine ⟨by simp, hq, ?_, ?_⟩
  · exact c7_detection_failure_nonfatal.1 _ _ (by simp) hq
  · exact c7_detection_failure_nonfatal.2 (MaiMaiTrainer.mk 0 [] none none) 1000 5 5 8
      (Or.inl rfl)

theorem detect_gesture_of_lookup_some (prev : PrevPositions) (pos : ℚ × ℚ × ℚ)
    (fid : String) (px py pz : ℚ) (h : List.lookup fid prev = some (px, py, pz)) :
    HandTracker.detect_gesture prev pos fid =
      (if (pos.1 - px) ^ 2 + (pos.2.1 - py) ^ 2 > 30 ^ 2 then
        (dictInsert fid pos prev, some (Gesture.SLIDE (atan2Deg (pos.2.1 - py) (pos.1 - px))))
      else if |pos.2.2 - pz| > 1 / 10 then (dictInsert fid pos prev, some Gesture.TAP)
      else (dictInsert fid pos prev, none)) := by
  unfold HandTracker.detect_gesture
  rw [h]

/-- C8: the gesture detector never reports a gesture on the first observation
of a finger id (it only records the baseline); on a subsequent observation it
reports SLIDE with direction degrees(atan2(dy, dx)) when the planar
displacement exceeds the 30-pixel slide threshold (stated via the equivalent
squared comparison), otherwise TAP when |dz| exceeds the 0.1 tap threshold,
and otherwise nothing; the recorded position is updated every call. -/
theorem c8_detect_gesture_classification :
    (∀ (prev : PrevPositions) (pos : ℚ × ℚ × ℚ) (fid : String),
        List.lookup fid prev = none →
        HandTracker.detect_gesture prev pos fid = (dictInsert fid pos prev, none)) ∧
    (∀ (prev : PrevPositions) (pos : ℚ × ℚ × ℚ) (fid : String) (px py pz : ℚ),
        List.lookup fid prev = some (px, py, pz) →
        ((pos.1 - px) ^ 2 + (pos.2.1 - py) ^ 2 > 30 ^ 2 →
          HandTracker.detect_gesture prev pos fid =
            (dictInsert fid pos prev,
              some (Gesture.SLIDE (atan2Deg (pos.2.1 - py) (pos.1 - px))))) ∧
        (¬ (pos.1 - px) ^ 2 + (pos.2.1 - py) ^ 2 > 30 ^ 2 → |pos.2.2 - pz| > 1 / 10 →
          HandTracker.detect_gesture prev pos fid =
            (dictInsert fid pos prev, some Gesture.TAP)) ∧
        (¬ (pos.1 - px) ^ 2 + (pos.2.1 - py) ^ 2 > 30 ^ 2 → ¬ |pos.2.2 - pz| > 1 / 10 →
          HandTracker.detect_gesture prev pos fid = (dictInsert fid pos prev, none))) := by
  constructor
  · intro prev pos fid h
    unfold HandTracker.detect_gesture
    rw [h]
  · intro prev pos fid px py pz h
    rw [detect_gesture_of_lookup_some prev pos fid px py pz h]
    refine ⟨fun h1 => ?_, fun h1 h2 => ?_, fun h1 h2 => ?_⟩
    · rw [if_pos h1]
    · rw [if_neg h1, if_pos h2]
    · rw [if_neg h1, if_neg h2]

theorem c8_witness :
    List.lookup "hand0finger8" ([("hand0finger8", ((0 : ℚ), (0 : ℚ), (0 : ℚ)))] : PrevPositions) =
      some (0, 0, 0) ∧
    ((100 : ℚ) - 0) ^ 2 + ((0 : ℚ) - 0) ^ 2 > 30 ^ 2 ∧
    HandTracker.detect_gesture [("hand0finger8", (0, 0, 0))] (100, 0, 0) "hand0finger8" =
      (dictInsert "hand0finger8" ((100 : ℚ), (0 : ℚ), (0 : ℚ)) [("hand0finger8", (0, 0, 0))],
        some (Gesture.SLIDE (atan2Deg (0 - 0) (100 - 0)))) := by
  refine ⟨rfl, by norm_num, ?_⟩
  exact ((c8_detect_gesture_classification.2 [("hand0finger8", (0, 0, 0))] (100, 0, 0)
      "hand0finger8" 0 0 0 rfl).1 (by norm_num))
